import Mathlib

/-!
Verification of the tuicpp widget toolkit (src/tuicpp.hpp).

The embedding models the geometry derivation performed by the layered
window constructors, the selection widget's key-handling state machine,
the table widget's column-width computation and auto-resize paths, and
the field editor's movement/dispatch loop.  C++ `int` values are modelled
as `Int`, `std::string` cell contents as `List Char`, `std::set <int>` as
`Finset Int`.
-/

namespace Tuicpp

/-- ncurses key code for the up arrow. -/
def KEY_UP : Int := 259

/-- ncurses key code for the down arrow. -/
def KEY_DOWN : Int := 258

/-- `ScreenInfo` from tuicpp.hpp: height, width, origin y, origin x. -/
structure ScreenInfo where
  height : Int
  width : Int
  y : Int
  x : Int
deriving DecidableEq

/-- The surfaces created by the `BoxedWindow` constructor: the `_box`
surface at full geometry and the `_main` content surface inset by one
cell on every side. -/
structure BoxedGeom where
  box : ScreenInfo
  main : ScreenInfo
deriving DecidableEq

/-- `BoxedWindow::BoxedWindow(height, width, y, x)`: `_box` is created at
the full geometry and `_main` at `(height-2, width-2, y+1, x+1)`. -/
def BoxedWindow.construct (height width y x : Int) : BoxedGeom :=
  { box := ⟨height, width, y, x⟩
    main := ⟨height - 2, width - 2, y + 1, x + 1⟩ }

/-- The surfaces created by the `DecoratedWindow` constructor, plus the
stored immutable title string. -/
structure DecoratedGeom where
  box : ScreenInfo
  main : ScreenInfo
  title : ScreenInfo
  title_str : List Char
deriving DecidableEq

/-- `DecoratedWindow::decoration_height`. -/
def decoration_height : Int := 5

/-- `DecoratedWindow::DecoratedWindow(title, height, width, y, x)`: the
`BoxedWindow` base constructor runs first, then `_main` is re-created at
`(height-5, width-2, y+4, x+1)` and `_title` at `(3, width-2, y+1, x+1)`. -/
def DecoratedWindow.construct (title : List Char) (height width y x : Int) :
    DecoratedGeom :=
  let b := BoxedWindow.construct height width y x
  { box := b.box
    main := ⟨height - 5, width - 2, y + 4, x + 1⟩
    title := ⟨3, width - 2, y + 1, x + 1⟩
    title_str := title }

/-- `SelectionWindow::Option`: centering and multi-select flags. -/
structure SelOption where
  centered : Bool
  multi : Bool
deriving DecidableEq

/-- The mutable state touched by `SelectionWindow::_handle_key`: the hover
line `_line`, the `_terminate` flag and the caller-supplied `selected` set
(passed by reference). -/
structure SelState where
  line : Int
  terminate : Bool
  selected : Finset Int
deriving DecidableEq

/-- The line update performed at the top of `SelectionWindow::_handle_key`:
decrement on `KEY_UP`, increment on `KEY_DOWN`, then clamp unconditionally
(`std::max(0, std::min(_line, size))` when multi, upper bound `size - 1`
otherwise). -/
def SelectionWindow.next_line (opt : SelOption) (size : Int) (c : Int)
    (line : Int) : Int :=
  let l1 := if c = KEY_UP then line - 1 else line
  let l2 := if c = KEY_DOWN then l1 + 1 else l1
  if opt.multi then max 0 (min l2 size) else max 0 (min l2 (size - 1))

/-- `SelectionWindow::_handle_key(c, selected)`: line update and clamp,
escape sets `_terminate`, enter selects (single mode: insert and terminate;
multi mode: terminate on the OK position, otherwise toggle membership). -/
def SelectionWindow.handle_key (opt : SelOption) (option_list : List String)
    (c : Int) (s : SelState) : SelState :=
  let size : Int := option_list.length
  let line := SelectionWindow.next_line opt size c s.line
  let term := if c = 27 then true else s.terminate
  if c = 10 then
    if opt.multi = false then
      { line := line, terminate := true, selected := insert line s.selected }
    else if line = size then
      { line := line, terminate := true, selected := s.selected }
    else if line ∈ s.selected then
      { line := line, terminate := term, selected := s.selected.erase line }
    else
      { line := line, terminate := term, selected := insert line s.selected }
  else
    { line := line, terminate := term, selected := s.selected }

/-- The widget state at entry of `SelectionWindow::yield`: `_line = 0`,
`_terminate = false`, and the caller-supplied selected set. -/
def SelState.start (sel : Finset Int) : SelState :=
  { line := 0, terminate := false, selected := sel }

/-- The key-processing loop of `SelectionWindow::yield`: while `_terminate`
is false, read a key and run `_handle_key` on it. -/
def SelectionWindow.run_keys (opt : SelOption) (option_list : List String)
    (keys : List Int) (s : SelState) : SelState :=
  match keys with
  | [] => s
  | c :: rest =>
      if s.terminate then s
      else SelectionWindow.run_keys opt option_list rest
        (SelectionWindow.handle_key opt option_list c s)

/-- `SelectionWindow::yield(selected)`: run the loop, then return
`selected.size() > 0` together with the final state. -/
def SelectionWindow.yield (opt : SelOption) (option_list : List String)
    (keys : List Int) (s : SelState) : Bool × SelState :=
  let f := SelectionWindow.run_keys opt option_list keys s
  (decide (0 < f.selected.card), f)

/-- `Table::From`: headers, data, cell generator, optional explicit lengths
and the auto-resize request. -/
structure TableFrom (T : Type) where
  headers : List (List Char)
  data : List T
  gen : T → Nat → List Char
  lengths : List Nat
  auto_resize : Bool

/-- The table state: the `PlainWindow` surface geometry plus the stored
headers, data, resolved column lengths and generator. -/
structure TableState (T : Type) where
  info : ScreenInfo
  headers : List (List Char)
  data : List T
  lengths : List Nat
  gen : T → Nat → List Char

/-- `Table::_get_lengths()`: for every column, start from the header's length
and raise it to any longer generated cell in that column. -/
def Table.get_lengths {T : Type} (headers : List (List Char)) (data : List T)
    (gen : T → Nat → List Char) : List Nat :=
  (List.range headers.length).map fun i =>
    data.foldl
      (fun acc d => if (gen d i).length > acc then (gen d i).length else acc)
      ((headers.getD i []).length)

/-- The width computed by the auto-resize path of the `Table` constructor:
`new_width` starts at 1 and each column adds its length plus 3. -/
def Table.auto_width (lengths : List Nat) : Int :=
  lengths.foldl (fun acc l => acc + ((l : Int) + 3)) 1

/-- `Table::Table(from, height, width, y, x)`: lengths are computed when not
supplied, and on `auto_resize` the surface is resized to
`(_data.size() + 4, new_width)`. -/
def Table.construct {T : Type} (f : TableFrom T) (height width y x : Int) :
    TableState T :=
  let lengths := if f.lengths.isEmpty
    then Table.get_lengths f.headers f.data f.gen else f.lengths
  let info0 : ScreenInfo := ⟨height, width, y, x⟩
  let info := if f.auto_resize
    then { info0 with height := (f.data.length : Int) + 4,
                      width := Table.auto_width lengths }
    else info0
  { info := info, headers := f.headers, data := f.data,
    lengths := lengths, gen := f.gen }

/-- `Table::set_data(data, auto_resize)`: replace the data, and on
`auto_resize` recompute the lengths and call `resize(_data.size() + 4, 1)`. -/
def Table.set_data {T : Type} (t : TableState T) (data : List T)
    (auto_resize : Bool) : TableState T :=
  if auto_resize then
    { t with data := data,
             lengths := Table.get_lengths t.headers data t.gen,
             info := { t.info with height := (data.length : Int) + 4,
                                   width := 1 } }
  else { t with data := data }

/-- The cell rendering of `Table::_write_table`: the generated string is cut
to the column width (`substr(0, _lengths[i])`) and padded with spaces up to
that width. -/
def Table.render_cell {T : Type} (gen : T → Nat → List Char) (d : T)
    (i : Nat) (w : Nat) : List Char :=
  let str := (gen d i).take w
  str ++ List.replicate (w - str.length) ' '

/-- The state touched by `FieldEditor::yield` and
`FieldEditor::_check_movement_input`: the focused field index, the `_quit`
and `_escape` flags, and the combined state of the caller-supplied yielders
(abstract, of type `σ`). -/
structure FEState (σ : Type) where
  field : Nat
  quit : Bool
  escape : Bool
  ystate : σ
deriving DecidableEq

/-- `FieldEditor::_check_movement_input(c, field)`: arrow keys move the focus
without wraparound, Enter sets `_quit` only on the OK position, Tab cycles
forward wrapping from OK to field 0, Escape sets `_escape` and `_quit`; the
second component is the `moved` return value. -/
def FieldEditor.check_movement_input {σ : Type} (n : Nat) (c : Int)
    (s : FEState σ) : FEState σ × Bool :=
  if c = KEY_UP then
    ({ s with field := if 0 < s.field then s.field - 1 else s.field }, true)
  else if c = KEY_DOWN then
    ({ s with field := if s.field < n then s.field + 1 else s.field }, true)
  else if c = 10 then
    ({ s with quit := if s.field = n then true else s.quit }, true)
  else if c = 9 then
    ({ s with field := if s.field = n then 0 else s.field + 1 }, true)
  else if c = 27 then
    ({ s with escape := true, quit := true }, true)
  else (s, false)

/-- One iteration of the `FieldEditor::yield` loop body after a key is read:
movement check, break on `_quit`, skip dispatch while on the OK position or
when the key was a movement key, otherwise dispatch the key to the focused
field's yielder (`proc`). -/
def FieldEditor.step {σ : Type} (n : Nat) (proc : Nat → Int → σ → σ)
    (c : Int) (s : FEState σ) : FEState σ :=
  let p := FieldEditor.check_movement_input n c s
  let s1 := p.1
  if s1.quit then s1
  else if n ≤ s1.field then s1
  else if p.2 then s1
  else { s1 with ystate := proc s1.field c s1.ystate }

/-- The key loop of `FieldEditor::yield`: process keys until `_quit`. -/
def FieldEditor.run {σ : Type} (n : Nat) (proc : Nat → Int → σ → σ)
    (keys : List Int) (s : FEState σ) : FEState σ :=
  match keys with
  | [] => s
  | c :: rest =>
      let s1 := FieldEditor.step n proc c s
      if s1.quit then s1 else FieldEditor.run n proc rest s1

/-- The return value of `FieldEditor::yield`: `!_escape` at loop exit. -/
def FieldEditor.yield_result {σ : Type} (n : Nat)
    (proc : Nat → Int → σ → σ) (keys : List Int) (s : FEState σ) : Bool :=
  !(FieldEditor.run n proc keys s).escape

/-- Concrete single-column headers used in witnesses. -/
def headersW : List (List Char) := [[('a' : Char), 'g', 'e']]

/-- Concrete generator used in witnesses: every cell renders as "hello". -/
def genHello : Nat → Nat → List Char :=
  fun _ _ => [('h' : Char), 'e', 'l', 'l', 'o']

/-- Concrete generator used in witnesses: every cell renders as "xxx". -/
def genThree : Nat → Nat → List Char := fun _ _ => [('x' : Char), 'x', 'x']

/-- Concrete table description, one header, two rows, derived lengths. -/
def fromAge : TableFrom Nat :=
  { headers := headersW, data := [0, 1], gen := genThree,
    lengths := [], auto_resize := false }

/-- The same table description with auto-resize requested. -/
def fromAgeAR : TableFrom Nat := { fromAge with auto_resize := true }

/-- A table description whose supplied lengths list does not match the
header count (two headers, one length). -/
def fromBadLengths : TableFrom Nat :=
  { headers := [[('a' : Char)], [('b' : Char)]], data := [0],
    gen := genThree, lengths := [5], auto_resize := false }

/-- C1: for every geometry (height, width, y, x) and every title string, the
decorated-window constructor derives the content surface as a pure function
of the geometry: size (height-5, width-2) at origin (y+4, x+1), the title
surface with size (3, width-2) at origin (y+1, x+1), reserving exactly
`decoration_height = 5` rows; re-deriving from the same geometry yields the
same result. -/
theorem decorated_window_content_derivation (title : List Char)
    (height width y x : Int) :
    (DecoratedWindow.construct title height width y x).main =
        ⟨height - decoration_height, width - 2, y + 4, x + 1⟩
    ∧ (DecoratedWindow.construct title height width y x).title =
        ⟨3, width - 2, y + 1, x + 1⟩
    ∧ height - (DecoratedWindow.construct title height width y x).main.height =
        decoration_height
    ∧ DecoratedWindow.construct title height width y x =
        DecoratedWindow.construct title height width y x := by
  refine ⟨rfl, rfl, ?_, rfl⟩
  show height - (height - 5) = decoration_height
  unfold decoration_height
  ring

/-- In every branch of `_handle_key` the stored line is the clamped update. -/
theorem SelectionWindow.handle_key_line (opt : SelOption)
    (option_list : List String) (c : Int) (s : SelState) :
    (SelectionWindow.handle_key opt option_list c s).line =
      SelectionWindow.next_line opt option_list.length c s.line := by
  simp only [SelectionWindow.handle_key]
  split_ifs <;> rfl

/-- The clamped line always lands in the mode's range, provided the range is
non-empty. -/
theorem SelectionWindow.next_line_bounds (opt : SelOption) (size : Int)
    (c : Int) (line : Int) (h : opt.multi = false → 1 ≤ size)
    (hsz : 0 ≤ size) :
    0 ≤ SelectionWindow.next_line opt size c line ∧
      SelectionWindow.next_line opt size c line ≤
        (if opt.multi then size else size - 1) := by
  have hb : opt.multi = true ∨ (opt.multi = false ∧ 1 ≤ size) := by
    cases hm : opt.multi
    · exact Or.inr ⟨rfl, h hm⟩
    · exact Or.inl rfl
  unfold SelectionWindow.next_line
  rcases hb with hm | ⟨hm, h1⟩ <;> simp [hm] <;> omega

/-- The key loop keeps the line in range once it is in range. -/
theorem SelectionWindow.run_keys_line_in_range (opt : SelOption)
    (option_list : List String) (keys : List Int)
    (h : opt.multi = false → 1 ≤ (option_list.length : Int)) :
    ∀ s : SelState,
      0 ≤ s.line ∧ s.line ≤ (if opt.multi then (option_list.length : Int)
        else (option_list.length : Int) - 1) →
      0 ≤ (SelectionWindow.run_keys opt option_list keys s).line ∧
        (SelectionWindow.run_keys opt option_list keys s).line ≤
          (if opt.multi then (option_list.length : Int)
            else (option_list.length : Int) - 1) := by
  induction keys with
  | nil => intro s hs; exact hs
  | cons c rest ih =>
    intro s hs
    unfold SelectionWindow.run_keys
    by_cases ht : s.terminate
    · simp only [ht, if_true]; exact hs
    · simp only [ht, if_false, Bool.false_eq_true]
      apply ih
      rw [SelectionWindow.handle_key_line]
      exact SelectionWindow.next_line_bounds opt _ c s.line h
        (Int.ofNat_nonneg _)

/-- C2 (amended): starting from the widget's initial state, for every
sequence of processed keys the highlight line stays within [0, N-1] when
multi is false and N >= 1, and within [0, N] when multi is true. -/
theorem selection_highlight_in_range (opt : SelOption)
    (option_list : List String) (keys : List Int) (sel : Finset Int)
    (h : opt.multi = false → 1 ≤ (option_list.length : Int)) :
    0 ≤ (SelectionWindow.run_keys opt option_list keys
        (SelState.start sel)).line ∧
      (SelectionWindow.run_keys opt option_list keys
        (SelState.start sel)).line ≤
        (if opt.multi then (option_list.length : Int)
          else (option_list.length : Int) - 1) := by
  apply SelectionWindow.run_keys_line_in_range opt option_list keys h
  constructor
  · exact le_refl 0
  · show (0 : Int) ≤ _
    by_cases hm : opt.multi
    · simp only [hm, if_true]; exact Int.ofNat_nonneg _
    · simp only [hm, if_false]
      have := h (by simpa using hm)
      omega

/-- C2 witness: a concrete instance of the amended range invariant, one
option and one KEY_DOWN press in single-select mode. -/
theorem selection_highlight_in_range_witness :
    (((⟨false, false⟩ : SelOption).multi = false →
        1 ≤ (([("a" : String)].length : Int))) ∧
      (0 ≤ (SelectionWindow.run_keys ⟨false, false⟩ [("a" : String)]
          [KEY_DOWN] (SelState.start ∅)).line ∧
        (SelectionWindow.run_keys ⟨false, false⟩ [("a" : String)]
          [KEY_DOWN] (SelState.start ∅)).line ≤
          (if (⟨false, false⟩ : SelOption).multi
            then (([("a" : String)].length : Int))
            else (([("a" : String)].length : Int)) - 1))) :=
  ⟨by decide, selection_highlight_in_range ⟨false, false⟩ [("a" : String)]
      [KEY_DOWN] ∅ (by decide)⟩

/-- C2 counterexample: with an empty option list and multi = false, after one
processed key the highlight line is 0, which is not within [0, N-1] = [0,-1];
the claim fails as stated for N = 0. -/
theorem selection_highlight_empty_list_counterexample :
    ¬ ((SelectionWindow.run_keys ⟨false, false⟩ ([] : List String)
        [KEY_UP] (SelState.start ∅)).line ≤
          (([] : List String).length : Int) - 1) := by
  decide

/-- C6: the blocking yield returns true if and only if the selected set is
non-empty when the loop reaches the terminated state. -/
theorem selection_yield_true_iff_nonempty (opt : SelOption)
    (option_list : List String) (keys : List Int) (s : SelState)
    (h : (SelectionWindow.run_keys opt option_list keys s).terminate = true) :
    (SelectionWindow.yield opt option_list keys s).1 = true ↔
      (SelectionWindow.run_keys opt option_list keys s).selected.Nonempty := by
  unfold SelectionWindow.yield
  simp [Finset.card_pos]

/-- C6 witness: single-select, one option, Enter pressed; the loop terminates
with a non-empty selection and yield returns true. -/
theorem selection_yield_true_iff_nonempty_witness :
    ((SelectionWindow.run_keys ⟨false, false⟩ [("a" : String)] [10]
        (SelState.start ∅)).terminate = true) ∧
      ((SelectionWindow.yield ⟨false, false⟩ [("a" : String)] [10]
          (SelState.start ∅)).1 = true ↔
        (SelectionWindow.run_keys ⟨false, false⟩ [("a" : String)] [10]
          (SelState.start ∅)).selected.Nonempty) :=
  ⟨by decide, selection_yield_true_iff_nonempty ⟨false, false⟩
      [("a" : String)] [10] (SelState.start ∅) (by decide)⟩

/-- C9: processing Escape (code 27) sets the terminate flag and leaves the
selected set exactly as it was. -/
theorem selection_escape_preserves_selected (opt : SelOption)
    (option_list : List String) (s : SelState) :
    (SelectionWindow.handle_key opt option_list 27 s).terminate = true ∧
      (SelectionWindow.handle_key opt option_list 27 s).selected =
        s.selected := by
  unfold SelectionWindow.handle_key
  norm_num

/-- In multi mode, with the line already inside [0, size), an Enter press
keeps the line where it is and toggles its membership in the selected set. -/
theorem SelectionWindow.handle_key_enter_multi (opt : SelOption)
    (option_list : List String) (s : SelState) (hm : opt.multi = true)
    (h0 : 0 ≤ s.line) (hN : s.line < (option_list.length : Int)) :
    SelectionWindow.handle_key opt option_list 10 s =
      { line := s.line, terminate := s.terminate,
        selected := if s.line ∈ s.selected then s.selected.erase s.line
          else insert s.line s.selected } := by
  have hline : SelectionWindow.next_line opt (option_list.length : Int) 10
      s.line = s.line := by
    unfold SelectionWindow.next_line KEY_UP KEY_DOWN
    simp only [hm, if_true]
    norm_num
    omega
  unfold SelectionWindow.handle_key
  simp only [hline, hm]
  norm_num
  rw [if_neg (by omega : ¬ s.line = (option_list.length : Int))]
  split_ifs with hmem <;> simp [hmem]

/-- C7: in multi-select mode, with the highlight held at an index strictly
below the option count, processing Enter twice leaves the selected set
unchanged: membership toggle is its own inverse. -/
theorem selection_multi_double_enter_selected_unchanged (opt : SelOption)
    (option_list : List String) (s : SelState) (hm : opt.multi = true)
    (h0 : 0 ≤ s.line) (hN : s.line < (option_list.length : Int)) :
    (SelectionWindow.handle_key opt option_list 10
        (SelectionWindow.handle_key opt option_list 10 s)).selected =
      s.selected := by
  rw [SelectionWindow.handle_key_enter_multi opt option_list s hm h0 hN]
  by_cases hmem : s.line ∈ s.selected
  · rw [if_pos hmem]
    rw [SelectionWindow.handle_key_enter_multi opt option_list
      ⟨s.line, s.terminate, s.selected.erase s.line⟩ hm h0 hN]
    simp [Finset.insert_erase hmem]
  · rw [if_neg hmem]
    rw [SelectionWindow.handle_key_enter_multi opt option_list
      ⟨s.line, s.terminate, insert s.line s.selected⟩ hm h0 hN]
    simp [Finset.erase_insert hmem]

/-- C7 witness: two options, highlight at 0, Enter twice starting from the
empty selection returns to the empty selection. -/
theorem selection_multi_double_enter_witness :
    ((⟨false, true⟩ : SelOption).multi = true ∧
      (0 : Int) ≤ (⟨0, false, ∅⟩ : SelState).line ∧
      (⟨0, false, ∅⟩ : SelState).line <
        (([("a" : String), "b"].length : Int)) ∧
      (SelectionWindow.handle_key ⟨false, true⟩ [("a" : String), "b"] 10
          (SelectionWindow.handle_key ⟨false, true⟩ [("a" : String), "b"] 10
            ⟨0, false, ∅⟩)).selected =
        (⟨0, false, ∅⟩ : SelState).selected) :=
  ⟨rfl, by decide, by decide,
    selection_multi_double_enter_selected_unchanged ⟨false, true⟩
      [("a" : String), "b"] ⟨0, false, ∅⟩ rfl (by decide) (by decide)⟩

/-- Folding the column maximum from an arbitrary start equals the maximum of
the start and the fold from zero. -/
theorem foldl_max_from_start (l : List Nat) :
    ∀ a : Nat, l.foldl max a = max a (l.foldl max 0) := by
  induction l with
  | nil => intro a; simp
  | cons b t ih =>
    intro a
    simp only [List.foldl_cons]
    rw [ih (max a b), ih (max 0 b)]
    simp [max_assoc]

/-- The update step of `_get_lengths` is the maximum. -/
theorem table_length_step (a x : Nat) :
    (if x > a then x else a) = max a x := by
  split_ifs <;> omega

/-- The resolved length of column `i` as computed by `_get_lengths`. -/
theorem table_get_lengths_getD {T : Type} (headers : List (List Char))
    (data : List T) (gen : T → Nat → List Char) (i : Nat)
    (hi : i < headers.length) :
    (Table.get_lengths headers data gen).getD i 0 =
      max ((headers.getD i []).length)
        ((data.map fun d => (gen d i).length).foldl max 0) := by
  unfold Table.get_lengths
  rw [List.getD_eq_getElem _ _ (by simpa using hi)]
  rw [List.getElem_map, List.getElem_range]
  have hfold : data.foldl
      (fun acc d => if (gen d i).length > acc then (gen d i).length else acc)
      ((headers.getD i []).length) =
      data.foldl (fun acc d => max acc (gen d i).length)
        ((headers.getD i []).length) := by
    congr 1
    funext acc d
    exact table_length_step acc (gen d i).length
  rw [hfold]
  have hmap : ∀ (l : List T) (a : Nat),
      l.foldl (fun acc d => max acc (gen d i).length) a =
        (l.map fun d => (gen d i).length).foldl max a := by
    intro l
    induction l with
    | nil => intro a; rfl
    | cons b t ih =>
      intro a
      simp only [List.foldl_cons, List.map_cons]
      exact ih _
  rw [hmap]
  exact foldl_max_from_start _ _

/-- C3: when the caller supplies no column widths, the derived width of
column i equals the maximum of the header length and every generated cell
length in that column, and every rendered cell, truncated and padded, never
exceeds that width. -/
theorem table_column_width_spec {T : Type} (headers : List (List Char))
    (data : List T) (gen : T → Nat → List Char) (i : Nat)
    (hi : i < headers.length) :
    (Table.get_lengths headers data gen).getD i 0 =
      max ((headers.getD i []).length)
        ((data.map fun d => (gen d i).length).foldl max 0) ∧
    ∀ d, (Table.render_cell gen d i
        ((Table.get_lengths headers data gen).getD i 0)).length ≤
      (Table.get_lengths headers data gen).getD i 0 := by
  refine ⟨table_get_lengths_getD headers data gen i hi, ?_⟩
  intro d
  unfold Table.render_cell
  simp only [List.length_append, List.length_replicate, List.length_take]
  omega

/-- C3 witness: one header of length 3, one row whose cell has length 5;
the derived width is 5 and the rendered cell fits it. -/
theorem table_column_width_spec_witness :
    ((0 : Nat) < headersW.length ∧
      ((Table.get_lengths headersW [(0 : Nat)] genHello).getD 0 0 =
          max ((headersW.getD 0 []).length)
            (([(0 : Nat)].map fun d => (genHello d 0).length).foldl max 0) ∧
        ∀ d, (Table.render_cell genHello d 0
            ((Table.get_lengths headersW [(0 : Nat)] genHello).getD 0 0)).length ≤
          (Table.get_lengths headersW [(0 : Nat)] genHello).getD 0 0)) :=
  ⟨by decide,
    table_column_width_spec headersW [(0 : Nat)] genHello 0 (by decide)⟩

/-- C4 (code bug): with auto-resize, the constructor resizes the surface to
height rowCount+4 and width `1 + sum of (length + 3)` (here 7 for one column
of width 3), but `set_data` with auto-resize resizes the width to the fixed
value 1 instead of the formula value 7. -/
theorem table_autoresize_set_data_width_mismatch :
    ((Table.construct fromAgeAR 10 20 0 0).info.height = (2 : Int) + 4
      ∧ (Table.construct fromAgeAR 10 20 0 0).info.width =
          Table.auto_width (Table.construct fromAgeAR 10 20 0 0).lengths
      ∧ Table.auto_width (Table.construct fromAgeAR 10 20 0 0).lengths = 7)
    ∧ ((Table.set_data (Table.construct fromAge 10 20 0 0) [0, 1, 2]
          true).info.height = (3 : Int) + 4
      ∧ (Table.set_data (Table.construct fromAge 10 20 0 0) [0, 1, 2]
          true).info.width = 1
      ∧ Table.auto_width ((Table.set_data (Table.construct fromAge 10 20 0 0)
          [0, 1, 2] true).lengths) = 7
      ∧ (1 : Int) ≠ 7) := by
  decide

/-- C5 (code bug): the constructors perform no validation: a decorated
window built on a 3-by-2 geometry silently receives a content surface of
height -2 and width 0, and a table whose supplied lengths list does not
match the header count keeps the mismatched list; no configuration error is
reported at construction time. -/
theorem construction_misuse_undetected :
    ((DecoratedWindow.construct [('t' : Char)] 3 2 0 0).main.height = -2
      ∧ (DecoratedWindow.construct [('t' : Char)] 3 2 0 0).main.width = 0)
    ∧ ((Table.construct fromBadLengths 5 5 0 0).lengths.length ≠
        (Table.construct fromBadLengths 5 5 0 0).headers.length) := by
  decide

/-- One loop step on Escape: the escape and quit flags are set. -/
theorem FieldEditor.step_escape {σ : Type} (n : Nat)
    (proc : Nat → Int → σ → σ) (s : FEState σ) :
    FieldEditor.step n proc 27 s = { s with escape := true, quit := true } := by
  unfold FieldEditor.step FieldEditor.check_movement_input KEY_UP KEY_DOWN
  norm_num

/-- One loop step on Enter while focused on the OK position: quit is set and
nothing else changes. -/
theorem FieldEditor.step_enter_on_ok {σ : Type} (n : Nat)
    (proc : Nat → Int → σ → σ) (s : FEState σ) (hf : s.field = n) :
    FieldEditor.step n proc 10 s = { s with quit := true } := by
  unfold FieldEditor.step FieldEditor.check_movement_input KEY_UP KEY_DOWN
  norm_num [hf]

/-- C8: for every field editor state, the blocking yield returns true unless
the escape flag was set, and processing Escape sets the escape flag and
terminates the loop yielding committed = false, at any focus position;
processing Enter while the focus is on the OK position (focus =
fields.length, escape not yet set) terminates the loop yielding
committed = true. -/
theorem fieldeditor_yield_escape_enter {σ : Type} (n : Nat)
    (proc : Nat → Int → σ → σ) (keys rest : List Int) (s : FEState σ) :
    (FieldEditor.yield_result n proc keys s = true ↔
        (FieldEditor.run n proc keys s).escape = false)
    ∧ (FieldEditor.run n proc (27 :: rest) s =
          { s with escape := true, quit := true }
        ∧ FieldEditor.yield_result n proc (27 :: rest) s = false)
    ∧ (s.field = n → s.escape = false →
        (FieldEditor.run n proc (10 :: rest) s = { s with quit := true }
          ∧ FieldEditor.yield_result n proc (10 :: rest) s = true)) := by
  have h27 : FieldEditor.run n proc (27 :: rest) s =
      { s with escape := true, quit := true } := by
    unfold FieldEditor.run
    rw [FieldEditor.step_escape]
    simp
  refine ⟨by simp [FieldEditor.yield_result], ⟨h27, ?_⟩, ?_⟩
  · unfold FieldEditor.yield_result
    rw [h27]
    rfl
  · intro hfield hesc
    have h10 : FieldEditor.run n proc (10 :: rest) s =
        { s with quit := true } := by
      unfold FieldEditor.run
      rw [FieldEditor.step_enter_on_ok n proc s hfield]
      simp
    refine ⟨h10, ?_⟩
    unfold FieldEditor.yield_result
    rw [h10]
    simp [hesc]

/-- C8 witness: one field; Escape pressed while editing field 0 (not the OK
position) terminates with committed = false, and Enter pressed with the
focus on the OK position terminates with committed = true. -/
theorem fieldeditor_yield_escape_enter_witness :
    ((FieldEditor.run 1 (fun _ _ y => y + 1) [27]
          (⟨0, false, false, 0⟩ : FEState Nat) =
        { (⟨0, false, false, 0⟩ : FEState Nat) with
            escape := true, quit := true }
      ∧ FieldEditor.yield_result 1 (fun _ _ y => y + 1) [27]
          (⟨0, false, false, 0⟩ : FEState Nat) = false)
    ∧ (⟨1, false, false, 0⟩ : FEState Nat).field = 1
    ∧ (⟨1, false, false, 0⟩ : FEState Nat).escape = false
    ∧ (FieldEditor.run 1 (fun _ _ y => y + 1) [10]
          (⟨1, false, false, 0⟩ : FEState Nat) =
        { (⟨1, false, false, 0⟩ : FEState Nat) with quit := true }
      ∧ FieldEditor.yield_result 1 (fun _ _ y => y + 1) [10]
          (⟨1, false, false, 0⟩ : FEState Nat) = true)) :=
  ⟨(fieldeditor_yield_escape_enter 1 (fun _ _ y => y + 1) [] []
      ⟨0, false, false, 0⟩).2.1,
    rfl, rfl,
    (fieldeditor_yield_escape_enter 1 (fun _ _ y => y + 1) [] []
      ⟨1, false, false, 0⟩).2.2 rfl rfl⟩

/-- C10: in the field editor, with the focus strictly below fields.length,
processing Enter (code 10) is a complete no-op: the focus index, the quit
and escape flags and the yielder state are unchanged for every edit
strategy, so the key is never dispatched. -/
theorem fieldeditor_enter_below_ok_noop {σ : Type} (n : Nat)
    (proc : Nat → Int → σ → σ) (s : FEState σ) (h : s.field < n) :
    FieldEditor.step n proc 10 s = s := by
  have hne : ¬ s.field = n := Nat.ne_of_lt h
  unfold FieldEditor.step FieldEditor.check_movement_input KEY_UP KEY_DOWN
  norm_num [hne]

/-- C10 witness: two fields, focus on field 0, a strategy that would change
the yielder state if dispatched; Enter leaves the state untouched. -/
theorem fieldeditor_enter_below_ok_noop_witness :
    ((⟨0, false, false, 5⟩ : FEState Nat).field < 2 ∧
      FieldEditor.step 2 (fun _ _ y => y + 1) 10
          (⟨0, false, false, 5⟩ : FEState Nat) =
        (⟨0, false, false, 5⟩ : FEState Nat)) :=
  ⟨by decide,
    fieldeditor_enter_below_ok_noop 2 (fun _ _ y => y + 1)
      ⟨0, false, false, 5⟩ (by decide)⟩

end Tuicpp
